import Mathlib

/-!
Verification of the `benbel/cinema` showtime scraper
(`programs/build_page.py`, `programs/config_data.py`).

The Python program is shallowly embedded below.  DOM access through
BeautifulSoup is modelled by records whose fields hold the outcome of each
`find` call, in program order: a field of type `Except Unit (Option τ)` is
`.error ()` when the underlying library call raises, `.ok none` when the
element is absent (or falsy), and `.ok (some v)` when found.  Python strings
are Lean `String`s; `str.strip`, `str.replace` and string comparison are
re-implemented on `List Char` so that every definition evaluates by kernel
reduction.  Python's stable `sorted` is modelled by `List.insertionSort`,
and pandas' order-preserving `unique` by an explicit first-occurrence
de-duplication.
-/

/-! ### Python string primitives -/

/-- Python `str.isspace` characters relevant here (ASCII whitespace),
as used by `str.strip()` with no arguments. -/
def pyIsSpace (c : Char) : Bool :=
  c = ' ' ∨ c = '\t' ∨ c = '\n' ∨ c = '\r' ∨ c = '\x0b' ∨ c = '\x0c'

/-- Data-level model of Python `str.strip()`: drop leading and trailing
whitespace. -/
def stripData (l : List Char) : List Char :=
  ((l.dropWhile pyIsSpace).reverse.dropWhile pyIsSpace).reverse

/-- Python `s.strip()`. -/
def pyStrip (s : String) : String :=
  ⟨stripData s.data⟩

/-- Lexicographic `≤` on code-point sequences: the comparison Python uses
on `str` values (in `sorted`). -/
def pyLeData : List Char → List Char → Bool
  | [], _ => true
  | _ :: _, [] => false
  | a :: as, b :: bs =>
    if a.toNat < b.toNat then true
    else if b.toNat < a.toNat then false
    else pyLeData as bs

/-- Python string `≤`, as a proposition. -/
def strLe (a b : String) : Prop :=
  pyLeData a.data b.data = true

instance : DecidableRel strLe :=
  fun a b => instDecidableEqBool (pyLeData a.data b.data) true

/-- Python `sorted` on strings (stable ascending sort). -/
def pySorted (l : List String) : List String :=
  List.insertionSort strLe l

/-- pandas `Series.unique`: first-occurrence-preserving de-duplication.
`seen` accumulates the values already emitted. -/
def uniqueGo [DecidableEq α] (seen : List α) : List α → List α
  | [] => []
  | a :: l => if a ∈ seen then uniqueGo seen l else a :: uniqueGo (a :: seen) l

/-- pandas `Series.unique` over a column given as a list. -/
def pyUnique [DecidableEq α] (l : List α) : List α :=
  uniqueGo [] l

/-! ### Configuration data (`programs/config_data.py`) -/

/-- `CINEMAS_BY_CODE`, in dict insertion order. -/
def CINEMAS_BY_CODE : List (String × String) :=
  [("C0026", "bercy"), ("C0144", "nation"), ("C2954", "bibliothèque"),
   ("C0020", "filmothèque"), ("C0040", "bastille"), ("C0139", "majestic")]

/-- `DAYS_BY_INDEX`. -/
def DAYS_BY_INDEX : List (Nat × String) :=
  [(0, "Lundi"), (1, "Mardi"), (2, "Mercredi"), (3, "Jeudi"),
   (4, "Vendredi"), (5, "Samedi"), (6, "Dimanche")]

/-- The seven weekday display names. -/
def day_names : List String :=
  DAYS_BY_INDEX.map (fun p => p.2)

/-- `index_by_day = {day: index for index, day in DAYS_BY_INDEX.items()}`
(built in `main`). -/
def index_by_day : List (String × Nat) :=
  DAYS_BY_INDEX.map (fun p => (p.2, p.1))

/-- `NUM_DAYS_TO_SCRAPE`. -/
def NUM_DAYS_TO_SCRAPE : Nat := 7

/-- `PAGES_TO_SCRAPE`. -/
def PAGES_TO_SCRAPE : List Nat := [1, 2]

/-! ### `normalize_path_component` -/

/-- The `problem_chars` list of `normalize_path_component`. -/
def problem_chars : List Char :=
  ['\"', ':', '<', '>', '|', '*', '?', '\r', '\n', '/']

/-- Python `s.replace(c, "")` for a single character `c`: every occurrence
of `c` is removed. -/
def removeChar (s : String) (c : Char) : String :=
  ⟨s.data.filter (fun x => x ≠ c)⟩

/-- `normalize_path_component`: strip each problematic character in turn,
then strip surrounding whitespace. -/
def normalize_path_component (filename_component : String) : String :=
  pyStrip (problem_chars.foldl removeChar filename_component)

/-- The thumbnail cache filename built in `parse_movie_div`:
`f"{normalize_path_component(film_name)}.jpg"`. -/
def image_filename_of (film_name : String) : String :=
  normalize_path_component film_name ++ ".jpg"

/-! ### `parse_showtime_hour` -/

/-- A `showtimes-hour-block` element.  Each field is the text of the
corresponding value `<span>` when that (truthy) child is found. -/
structure HourElement where
  singular : Option String
  plural : Option String
deriving DecidableEq

/-- `parse_showtime_hour`: try the singular marker, fall back to the plural
one, else `None`. -/
def parse_showtime_hour (hour_element : HourElement) : Option String :=
  match hour_element.singular with
  | some t => some (pyStrip t)
  | none =>
    match hour_element.plural with
    | some t => some (pyStrip t)
    | none => none

/-! ### `download_image` -/

/-- The set of paths present on disk. -/
structure FileSystem where
  files : List String
deriving DecidableEq

/-- `os.path.isfile`. -/
def isfile (fs : FileSystem) (p : String) : Bool :=
  fs.files.contains p

/-- `download_image(url, filepath, session)`.  `session url` tells whether
the GET for `url` succeeds (a failing GET raises `RequestException`, which
the function catches).  Returns the Python return value, the resulting
file system, and the number of network fetches performed. -/
def download_image (session : String → Bool) (url filepath : String)
    (fs : FileSystem) : Bool × FileSystem × Nat :=
  if isfile fs filepath then (false, fs, 0)
  else if session url then (true, ⟨filepath :: fs.files⟩, 1)
  else (false, fs, 1)

/-! ### `parse_movie_div` -/

/-- An `<img class="thumbnail-img">` tag: its `data-src` and `src`
attributes. -/
structure ImgTag where
  data_src : Option String
  src : Option String
deriving DecidableEq

/-- `img_tag.get('data-src', img_tag.get('src'))`. -/
def imgGet (t : ImgTag) : Option String :=
  match t.data_src with
  | some u => some u
  | none => t.src

/-- One movie card.  Each field is the outcome of the corresponding
library call made by `parse_movie_div`, in program order:
`.error ()` models that call raising an exception. -/
structure MovieDiv where
  find_film_name : Except Unit (Option String)
  find_synopsis : Except Unit (Option String)
  find_showtimes : Except Unit (Option (List HourElement))
  find_img : Except Unit (Option ImgTag)
  run_download : Except Unit Bool
  find_release_date : Except Unit (Option String)

/-- One scraped tuple
`(film_name, release_date, synopsis, showtime, image_filename)`. -/
structure Seance where
  film_name : String
  release_date : String
  synopsis : String
  showtime : String
  image_filename : String
deriving DecidableEq

/-- Python truthiness of an optional string: `None` and `""` are falsy. -/
def truthyStr : Option String → Bool
  | some s => s ≠ ""
  | none => false

/-- The showtime strings a card contributes: Python's
`[st for st in showtimes if st]` applied to the parsed hours. -/
def keptShowtimes (hour_elements : List HourElement) : List String :=
  ((hour_elements.map parse_showtime_hour).filter truthyStr).map
    (fun o => o.getD "")

/-- The body of `parse_movie_div`'s `try` block.  An error carries the
value of the local `film_name` at the point the exception was raised:
`none` when the exception precedes the `film_name` assignment. -/
def parse_movie_div_core (d : MovieDiv) : Except (Option String) (List Seance) := do
  let film_name_tag ← d.find_film_name.mapError (fun _ => (none : Option String))
  let film_name := match film_name_tag with
    | some t => pyStrip t
    | none => "Unknown Film"
  let synopsis_tag ← d.find_synopsis.mapError (fun _ => some film_name)
  let synopsis := match synopsis_tag with
    | some t => pyStrip t
    | none => "No synopsis available."
  let showtimes_div ← d.find_showtimes.mapError (fun _ => some film_name)
  let hour_elements := match showtimes_div with
    | some hs => hs
    | none => []
  let img_tag ← d.find_img.mapError (fun _ => some film_name)
  let thumbnail_url := match img_tag with
    | some t => imgGet t
    | none => none
  let image_filename := image_filename_of film_name
  if thumbnail_url.isSome then
    let _ ← d.run_download.mapError (fun _ => some film_name)
  let release_date_tag ← d.find_release_date.mapError (fun _ => some film_name)
  let release_date := match release_date_tag with
    | some t => pyStrip t
    | none => ""
  let showtimes := keptShowtimes hour_elements
  if showtimes.isEmpty then
    return []
  return showtimes.map (fun showtime =>
    ⟨film_name, release_date, synopsis, showtime, image_filename⟩)

/-- `parse_movie_div`.  The `except` handler prints an f-string reading
the local `film_name` and returns `[]`; when the exception was raised
before `film_name` was assigned, that read itself raises
`UnboundLocalError`, which escapes the function (modelled `.error ()`). -/
def parse_movie_div (d : MovieDiv) : Except Unit (List Seance) :=
  match parse_movie_div_core d with
  | .ok r => .ok r
  | .error (some _) => .ok []
  | .error none => .error ()

/-! ### `parse_page_results` -/

/-- A fetched listing page: `holder` is the `showtimes-list-holder`
element, holding its movie card elements when present. -/
structure PageSoup where
  holder : Option (List MovieDiv)

/-- The accumulation loop of `parse_page_results`: an uncaught exception
from any card aborts the whole page. -/
def parse_cards : List MovieDiv → Except Unit (List Seance)
  | [] => .ok []
  | d :: ds =>
    match parse_movie_div d with
    | .ok rs =>
      match parse_cards ds with
      | .ok rest => .ok (rs ++ rest)
      | .error e => .error e
    | .error e => .error e

/-- `parse_page_results(beautifulsoup_results, session)`; the argument is
`none` when the fetch returned `None`. -/
def parse_page_results : Option PageSoup → Except Unit (List Seance)
  | none => .ok []
  | some soup =>
    match soup.holder with
    | none => .ok []
    | some cards => parse_cards cards

/-! ### Aggregation and rendering (`main` and the render helpers) -/

/-- One row of `results_df`, with the columns
`cinema, jour, film, jour_sortie, synopsis, heure, image_filename`. -/
structure Row where
  cinema : String
  jour : String
  film : String
  jour_sortie : String
  synopsis : String
  heure : String
  image_filename : String
deriving DecidableEq

/-- `sorted(cinema_specific_results.heure.unique())` inside
`build_seances_string_for_film`. -/
def unique_hours (cinema_name : String) (film_results : List Row) : List String :=
  pySorted (pyUnique ((film_results.filter
    (fun r => r.cinema == cinema_name)).map (fun r => r.heure)))

/-- `build_seances_string_for_film`. -/
def build_seances_string_for_film (cinema_name : String)
    (film_results : List Row) : String :=
  String.intercalate "/" (unique_hours cinema_name film_results)

/-- `sorted(film_results_df.cinema.unique())` inside
`generate_seance_summary_for_film`. -/
def film_cinemas (film_results : List Row) : List String :=
  pySorted (pyUnique (film_results.map (fun r => r.cinema)))

/-- The `seance_strings` list comprehension. -/
def seance_strings (film_results : List Row) : List String :=
  (film_cinemas film_results).map (fun cinema_name =>
    cinema_name ++ " " ++ build_seances_string_for_film cinema_name film_results
      ++ "<br>")

/-- `generate_seance_summary_for_film`. -/
def generate_seance_summary_for_film (film_results : List Row) : String :=
  String.intercalate "\n" (seance_strings film_results)

/-- The three Jinja templates, taken as opaque collaborators:
`index.html` (content), `day_section.html` (day, films_html) and
`film_section.html` (film_name, seances, film_path, release_date,
synopsis). -/
structure Templates where
  index : String → String
  day : String → String → String
  film : String → String → String → String → String → String

/-- Python `s.replace(pat, rep)` for a non-empty pattern, at the
character-list level. -/
def replaceData (pat rep : List Char) : List Char → List Char
  | [] => []
  | c :: cs =>
    if pat.isPrefixOf (c :: cs) ∧ pat ≠ [] then
      rep ++ replaceData pat rep ((c :: cs).drop pat.length)
    else
      c :: replaceData pat rep cs
termination_by l => l.length
decreasing_by
  · simp only [List.length_drop, List.length_cons]
    have hp : 0 < pat.length := by
      rcases pat with _ | ⟨p, ps⟩
      · simp_all
      · simp
    omega
  · simp

/-- Python `s.replace(pat, rep)`. -/
def pyReplace (s pat rep : String) : String :=
  ⟨replaceData pat.data rep.data s.data⟩

/-- `render_film_html`.  `iloc[0]` reads from the group's first row. -/
def render_film_html (T : Templates) (film_name : String)
    (film_data : List Row) : String :=
  let synopsis := (film_data.head?.map (fun r => r.synopsis)).getD ""
  let release_date := (film_data.head?.map (fun r => r.jour_sortie)).getD ""
  let image_filename := (film_data.head?.map (fun r => r.image_filename)).getD ""
  let seances_summary := generate_seance_summary_for_film film_data
  let film_path := pyReplace image_filename ".jpg" ""
  T.film film_name seances_summary film_path release_date synopsis

/-- `day_data_df.groupby("film")` followed by `sorted(...)`: film groups
keyed alphabetically, each holding its rows in frame order. -/
def groupby_film (rows : List Row) : List (String × List Row) :=
  (pySorted (pyUnique (rows.map (fun r => r.film)))).map
    (fun f => (f, rows.filter (fun r => r.film == f)))

/-- `render_day_html`. -/
def render_day_html (T : Templates) (day_name : String)
    (day_data : List Row) : String :=
  T.day day_name (String.intercalate "\n"
    ((groupby_film day_data).map (fun p => render_film_html T p.1 p.2)))

/-- The sort key of `day_categories` in `main`:
`(index_by_day[d] - today_weekday_index + 7) % 7`.  For a valid day name
and `today_weekday_index < 7` the Python integer expression is
non-negative, so plain `Nat` arithmetic agrees with it. -/
def dayKey (today_weekday_index : Nat) (d : String) : Nat :=
  (((index_by_day.lookup d).getD 0) + 7 - today_weekday_index) % 7

/-- `day_categories = sorted(results_df.jour.unique(), key=...)`. -/
def day_categories (today_weekday_index : Nat) (jour_col : List String) :
    List String :=
  List.insertionSort
    (fun a b => dayKey today_weekday_index a ≤ dayKey today_weekday_index b)
    (pyUnique jour_col)

/-- `sort_values` on the ordered categorical `jour` followed by
`groupby("jour", observed=True)`: one group per category (category order),
each holding its rows. -/
def groupby_jour (today_weekday_index : Nat) (rows : List Row) :
    List (String × List Row) :=
  (day_categories today_weekday_index (rows.map (fun r => r.jour))).map
    (fun d => (d, rows.filter (fun r => r.jour == d)))

/-- The placeholder content rendered when no data was scraped. -/
def no_data_content : String :=
  "<p>No showtime data available at the moment.</p>"

/-- The aggregation-and-rendering tail of `main` (everything after the
scraping loop), as a function of the scraped rows. -/
def build_index_html (T : Templates) (today_weekday_index : Nat)
    (scraped : List Row) : String :=
  if scraped.isEmpty then
    T.index no_data_content
  else
    T.index (String.intercalate "\n"
      ((groupby_jour today_weekday_index scraped).map
        (fun p => render_day_html T p.1 p.2)))

/-! ### The scraping loop of `main` -/

/-- The environment of a run: `page_seances c k p` is what
`scrape_single_page` returns for cinema code `c`, date offset `k` and page
number `p` (an empty list on fetch failure or an empty page). -/
structure ScrapeEnv where
  page_seances : String → Nat → Nat → List Seance

/-- The decoration `(cinema_name, day_name) + seance` done in `main`,
yielding one `results_df` row. -/
def decorate (cinema_name day_name : String) (s : Seance) : Row :=
  ⟨cinema_name, day_name, s.film_name, s.release_date, s.synopsis,
    s.showtime, s.image_filename⟩

/-- The inner `for page_num in PAGES_TO_SCRAPE` loop for one cinema and
date: returns the pages actually requested, in request order, and the
seances collected.  A page with no results breaks the loop. -/
def pages_loop (env : ScrapeEnv) (c : String) (k : Nat) :
    List Nat → List Nat × List Seance
  | [] => ([], [])
  | p :: ps =>
    let r := env.page_seances c k p
    if r.isEmpty then ([p], [])
    else
      let rest := pages_loop env c k ps
      (p :: rest.1, r ++ rest.2)

/-- The `for date_obj in dates_to_scrape` loop for one cinema: the request
trace (cinema code, date offset, page) and the decorated rows. -/
def scrape_dates (env : ScrapeEnv) (today_weekday_index : Nat)
    (code cinema_name : String) :
    List Nat → List (String × Nat × Nat) × List Row
  | [] => ([], [])
  | k :: ks =>
    let pr := pages_loop env code k PAGES_TO_SCRAPE
    let day_name := (DAYS_BY_INDEX.lookup ((today_weekday_index + k) % 7)).getD ""
    let here := pr.2.map (decorate cinema_name day_name)
    let rest := scrape_dates env today_weekday_index code cinema_name ks
    (pr.1.map (fun p => (code, k, p)) ++ rest.1, here ++ rest.2)

/-- The outer `for cinema_code in CINEMAS_BY_CODE` loop. -/
def scrape_cinemas (env : ScrapeEnv) (today_weekday_index : Nat) :
    List (String × String) → List (String × Nat × Nat) × List Row
  | [] => ([], [])
  | cn :: rest =>
    let here := scrape_dates env today_weekday_index cn.1 cn.2
      (List.range NUM_DAYS_TO_SCRAPE)
    let further := scrape_cinemas env today_weekday_index rest
    (here.1 ++ further.1, here.2 ++ further.2)

/-- The whole scraping loop of `main`: request trace and scraped rows. -/
def scrape_run (env : ScrapeEnv) (today_weekday_index : Nat) :
    List (String × Nat × Nat) × List Row :=
  scrape_cinemas env today_weekday_index CINEMAS_BY_CODE

/-- The page numbers requested for one (cinema code, date offset) pair
over the whole run, in request order. -/
def requests_for (env : ScrapeEnv) (today_weekday_index : Nat)
    (c : String) (k : Nat) : List Nat :=
  ((scrape_run env today_weekday_index).1.filter
    (fun t => t.1 == c && t.2.1 == k)).map (fun t => t.2.2)

/-- The canonical week rotated to start at weekday `w`:
today, today+1, ..., today+6, as display names. -/
def rotation_from (w : Nat) : List String :=
  (List.range 7).filterMap (fun i => DAYS_BY_INDEX.lookup ((w + i) % 7))

/-! ### Accessors and sample inputs used in the statements below -/

/-- The hour elements of a card whose showtimes lookup succeeded
(empty when the container is absent). -/
def div_hours (d : MovieDiv) : List HourElement :=
  match d.find_showtimes with
  | .ok (some hs) => hs
  | _ => []

/-- Every library call made by `parse_movie_div` succeeds on this card
(no exception is raised inside the `try` block). -/
def div_steps_ok (d : MovieDiv) : Bool :=
  d.find_film_name.isOk && d.find_synopsis.isOk && d.find_showtimes.isOk
    && d.find_img.isOk && d.run_download.isOk && d.find_release_date.isOk

/-- A card whose very first library call — the title lookup — raises,
before the local `film_name` is assigned. -/
def card_title_raises : MovieDiv :=
  ⟨.error (), .ok none, .ok none, .ok none, .ok true, .ok none⟩

/-- A well-formed card with one showtime. -/
def card_good : MovieDiv :=
  ⟨.ok (some "Good Film"), .ok none, .ok (some [⟨some "12:00", none⟩]),
    .ok none, .ok true, .ok none⟩

/-- The single record `card_good` yields. -/
def record_good : Seance :=
  ⟨"Good Film", "", "No synopsis available.", "12:00", "Good Film.jpg"⟩

/-- A card whose release-date lookup raises, after `film_name` was
assigned. -/
def card_late_raises : MovieDiv :=
  ⟨.ok (some "Late Fail"), .ok none, .ok (some [⟨some "12:00", none⟩]),
    .ok none, .ok true, .error ()⟩

/-- A card with no title element and no synopsis element but one
parseable showtime. -/
def card_no_title : MovieDiv :=
  ⟨.ok none, .ok none, .ok (some [⟨some "20:15", none⟩]),
    .ok none, .ok true, .ok none⟩

/-- A card whose hour elements mix an unparseable entry (neither marker)
with a parseable one. -/
def card_mixed_hours : MovieDiv :=
  ⟨.ok (some "Mixed"), .ok none,
    .ok (some [⟨none, none⟩, ⟨some "10:00", none⟩]),
    .ok none, .ok true, .ok none⟩

/-- An environment in which every page is empty. -/
def env_empty : ScrapeEnv :=
  ⟨fun _ _ _ => []⟩

/-- An environment in which only page 1 of cinema `C0026`, date offset 0,
has one seance. -/
def env_one_film : ScrapeEnv :=
  ⟨fun c k p =>
    if c = "C0026" ∧ k = 0 ∧ p = 1 then
      [⟨"Oppenheimer", "", "No synopsis available.", "14:00", "Oppenheimer.jpg"⟩]
    else []⟩

/-- Concrete stand-ins for the three Jinja templates. -/
def sample_templates : Templates :=
  ⟨fun c => "<html>" ++ c ++ "</html>",
   fun d f => "<h1>" ++ d ++ "</h1>" ++ f,
   fun a b c d e => a ++ b ++ c ++ d ++ e⟩

/-- Alternative templates sharing only the page shell with
`sample_templates`. -/
def sample_templates2 : Templates :=
  ⟨fun c => "<html>" ++ c ++ "</html>",
   fun _ _ => "DAY",
   fun _ _ _ _ _ => "FILM"⟩

/-! ### Helper lemmas -/

theorem mem_uniqueGo [DecidableEq α] (x : α) (l : List α) :
    ∀ seen, x ∈ uniqueGo seen l ↔ x ∈ l ∧ x ∉ seen := by
  induction l with
  | nil => intro seen; simp [uniqueGo]
  | cons a l ih =>
    intro seen
    by_cases h : a ∈ seen
    · rw [uniqueGo, if_pos h, ih seen]
      simp only [List.mem_cons]
      constructor
      · rintro ⟨h1, h2⟩
        exact ⟨Or.inr h1, h2⟩
      · rintro ⟨h1 | h1, h2⟩
        · exact absurd (h1 ▸ h) h2
        · exact ⟨h1, h2⟩
    · rw [uniqueGo, if_neg h]
      simp only [List.mem_cons, ih (a :: seen), List.mem_cons]
      by_cases hxa : x = a
      · subst hxa
        simp [h]
      · simp only [hxa, false_or, or_false]
  
theorem nodup_uniqueGo [DecidableEq α] (l : List α) :
    ∀ seen, (uniqueGo seen l).Nodup := by
  induction l with
  | nil => intro seen; simp [uniqueGo]
  | cons a l ih =>
    intro seen
    by_cases h : a ∈ seen
    · rw [uniqueGo, if_pos h]
      exact ih seen
    · rw [uniqueGo, if_neg h]
      refine List.nodup_cons.mpr ⟨?_, ih (a :: seen)⟩
      intro hmem
      exact ((mem_uniqueGo a l (a :: seen)).1 hmem).2 (List.mem_cons_self a seen)

theorem mem_pyUnique [DecidableEq α] (x : α) (l : List α) :
    x ∈ pyUnique l ↔ x ∈ l := by
  rw [pyUnique, mem_uniqueGo]
  simp

theorem nodup_pyUnique [DecidableEq α] (l : List α) : (pyUnique l).Nodup :=
  nodup_uniqueGo l []

theorem pyLeData_total : ∀ a b, pyLeData a b = true ∨ pyLeData b a = true
  | [], _ => Or.inl rfl
  | _ :: _, [] => Or.inr rfl
  | a :: as, b :: bs => by
    rcases Nat.lt_trichotomy a.toNat b.toNat with h | h | h
    · left
      simp [pyLeData, h]
    · have h2 : ¬ a.toNat < b.toNat := by omega
      have h3 : ¬ b.toNat < a.toNat := by omega
      rcases pyLeData_total as bs with ih | ih
      · left
        simp [pyLeData, h2, h3, ih]
      · right
        simp [pyLeData, h2, h3, ih]
    · right
      simp [pyLeData, h]

theorem pyLeData_trans : ∀ a b c, pyLeData a b = true → pyLeData b c = true →
    pyLeData a c = true
  | [], _, _ => by
    intro _ _
    rfl
  | _ :: _, [], _ => by
    intro h _
    exact absurd h (by simp [pyLeData])
  | _ :: _, _ :: _, [] => by
    intro _ h
    exact absurd h (by simp [pyLeData])
  | a :: as, b :: bs, c :: cs => by
    intro h1 h2
    simp only [pyLeData] at h1 h2 ⊢
    split_ifs at h1 h2 ⊢ <;> first
      | rfl
      | omega
      | exact pyLeData_trans as bs cs h1 h2

theorem strLe_total : ∀ a b : String, strLe a b ∨ strLe b a :=
  fun a b => pyLeData_total a.data b.data

theorem strLe_trans_thm : ∀ a b c : String, strLe a b → strLe b c → strLe a c :=
  fun a b c => pyLeData_trans a.data b.data c.data

theorem pySorted_perm (l : List String) : (pySorted l).Perm l :=
  List.perm_insertionSort _ l

theorem pySorted_sorted (l : List String) : (pySorted l).Sorted strLe := by
  haveI : IsTotal String strLe := ⟨strLe_total⟩
  haveI : IsTrans String strLe := ⟨fun a b c => strLe_trans_thm a b c⟩
  exact List.sorted_insertionSort strLe l

theorem mem_pySorted (x : String) (l : List String) :
    x ∈ pySorted l ↔ x ∈ l :=
  (pySorted_perm l).mem_iff

theorem foldl_removeChar (cs : List Char) : ∀ s : String,
    cs.foldl removeChar s = ⟨s.data.filter (fun c => !(cs.contains c))⟩ := by
  induction cs with
  | nil =>
    intro s
    simp [List.foldl]
  | cons c cs ih =>
    intro s
    rw [List.foldl_cons, ih]
    refine congrArg String.mk ?_
    show ((removeChar s c).data.filter _) = _
    rw [removeChar, List.filter_filter]
    refine List.filter_congr ?_
    intro a _
    simp only [List.contains_cons, Bool.not_or]
    by_cases h : a = c <;> simp [h]

/-- Claim C6: the thumbnail cache filename is the title with every
occurrence of each problematic character (`"` `:` `<` `>` `|` `*` `?`
CR LF `/`) removed and surrounding whitespace stripped, plus `.jpg`;
in particular `Dune: Part Two` yields `Dune Part Two.jpg`, with no
colon. -/
theorem filename_sanitization :
    (∀ t : String, normalize_path_component t
        = pyStrip ⟨t.data.filter (fun c => !(problem_chars.contains c))⟩)
      ∧ image_filename_of "Dune: Part Two" = "Dune Part Two.jpg"
      ∧ ':' ∉ (image_filename_of "Dune: Part Two").data := by
  refine ⟨?_, by decide, by decide⟩
  intro t
  rw [normalize_path_component, foldl_removeChar]

/-- Claim C4: for every film group, the summary has one line per distinct
cinema, lines in alphabetical cinema order, each listing that cinema's
deduplicated, lexically sorted showtimes joined with `/`. -/
theorem film_summary_per_cinema (rows : List Row) :
    generate_seance_summary_for_film rows
        = String.intercalate "\n" (seance_strings rows)
      ∧ seance_strings rows = (film_cinemas rows).map (fun c =>
          c ++ " " ++ String.intercalate "/" (unique_hours c rows) ++ "<br>")
      ∧ (film_cinemas rows).Nodup
      ∧ (film_cinemas rows).Sorted strLe
      ∧ (∀ c, c ∈ film_cinemas rows ↔ ∃ r ∈ rows, r.cinema = c)
      ∧ (∀ c, (unique_hours c rows).Nodup
          ∧ (unique_hours c rows).Sorted strLe
          ∧ (∀ h, h ∈ unique_hours c rows ↔ ∃ r ∈ rows, r.cinema = c ∧ r.heure = h)) := by
  refine ⟨rfl, rfl, ?_, pySorted_sorted _, ?_, ?_⟩
  · exact (pySorted_perm _).symm.nodup (nodup_pyUnique _)
  · intro c
    rw [film_cinemas, mem_pySorted, mem_pyUnique, List.mem_map]
  · intro c
    refine ⟨(pySorted_perm _).symm.nodup (nodup_pyUnique _), pySorted_sorted _, ?_⟩
    intro h
    rw [unique_hours, mem_pySorted, mem_pyUnique, List.mem_map]
    constructor
    · rintro ⟨r, hr, rfl⟩
      rw [List.mem_filter] at hr
      exact ⟨r, hr.1, by simpa using hr.2, rfl⟩
    · rintro ⟨r, hr, hc, rfl⟩
      exact ⟨r, List.mem_filter.mpr ⟨hr, by simp [hc]⟩, rfl⟩

/-- Claim C8: the parsed hour comes from the singular marker when present
(even when both markers are present), else from the plural marker, else
the hour entry is skipped and contributes no record. -/
theorem showtime_hour_marker_precedence :
    (∀ s p, parse_showtime_hour ⟨some s, p⟩ = some (pyStrip s))
      ∧ (∀ t, parse_showtime_hour ⟨none, some t⟩ = some (pyStrip t))
      ∧ parse_showtime_hour ⟨none, none⟩ = none
      ∧ parse_movie_div card_mixed_hours
          = .ok [⟨"Mixed", "", "No synopsis available.", "10:00", "Mixed.jpg"⟩] :=
  ⟨fun _ _ => rfl, fun _ => rfl, rfl, rfl⟩

theorem isOk_iff_exists {ε α : Type} (e : Except ε α) :
    e.isOk = true ↔ ∃ a, e = .ok a := by
  cases e <;> simp [Except.isOk, Except.toBool]

theorem parse_movie_div_ok_eval (fn sy : Option String)
    (st : Option (List HourElement)) (im : Option ImgTag) (dl : Bool)
    (rd : Option String) :
    parse_movie_div ⟨.ok fn, .ok sy, .ok st, .ok im, .ok dl, .ok rd⟩
      = .ok (if (keptShowtimes (st.getD [])).isEmpty = true then []
          else (keptShowtimes (st.getD [])).map (fun s =>
            ⟨(match fn with | some t => pyStrip t | none => "Unknown Film"),
             (match rd with | some t => pyStrip t | none => ""),
             (match sy with | some t => pyStrip t | none => "No synopsis available."),
             s,
             image_filename_of
               (match fn with | some t => pyStrip t | none => "Unknown Film")⟩)) := by
  rw [parse_movie_div, parse_movie_div_core]
  cases st with
  | none =>
    by_cases himg : (match im with | some t => imgGet t | none => none).isSome
      <;> simp [himg, Except.mapError, bind, Except.bind, pure, Except.pure,
            keptShowtimes]
  | some hs =>
    by_cases himg : (match im with | some t => imgGet t | none => none).isSome
      <;> by_cases hemp : (keptShowtimes hs).isEmpty = true
      <;> simp [himg, hemp, Except.mapError, bind, Except.bind, pure, Except.pure]

theorem div_hours_ok (f1 f2 f4 f5 f6) (st : Option (List HourElement)) :
    div_hours ⟨f1, f2, .ok st, f4, f5, f6⟩ = st.getD [] := by
  rw [div_hours]
  cases st <;> rfl

theorem keptShowtimes_length (hs : List HourElement) :
    (keptShowtimes hs).length
      = hs.countP (fun he => truthyStr (parse_showtime_hour he)) := by
  rw [keptShowtimes, List.length_map, ← List.countP_eq_length_filter,
    List.countP_map]
  rfl

/-- Claim C2: an exception-free card emits exactly one record per
showtime-hour sub-element with a parseable (truthy) hour value; with zero
such hours the card is dropped entirely (no record at all). -/
theorem records_per_parseable_hour (d : MovieDiv) (hok : div_steps_ok d = true) :
    ∃ l, parse_movie_div d = Except.ok l
      ∧ l.length = (div_hours d).countP (fun he => truthyStr (parse_showtime_hour he))
      ∧ ((div_hours d).countP (fun he => truthyStr (parse_showtime_hour he)) = 0
          → l = []) := by
  obtain ⟨f1, f2, f3, f4, f5, f6⟩ := d
  rw [div_steps_ok] at hok
  simp only [Bool.and_eq_true, isOk_iff_exists] at hok
  obtain ⟨⟨⟨⟨⟨⟨fn, hfn⟩, ⟨sy, hsy⟩⟩, ⟨st, hst⟩⟩, ⟨im, him⟩⟩, ⟨dl, hdl⟩⟩, ⟨rd, hrd⟩⟩ := hok
  subst hfn hsy hst him hdl hrd
  rw [parse_movie_div_ok_eval, div_hours_ok, ← keptShowtimes_length]
  by_cases hemp : (keptShowtimes (st.getD [])).isEmpty = true
  · rw [if_pos hemp]
    rw [List.isEmpty_iff] at hemp
    refine ⟨[], rfl, ?_, fun _ => rfl⟩
    simp [hemp]
  · rw [if_neg hemp]
    refine ⟨_, rfl, by rw [List.length_map], ?_⟩
    intro hzero
    rw [List.length_eq_zero] at hzero
    rw [List.isEmpty_iff] at hemp
    exact absurd hzero hemp

/-- Claim C10: a card with no title element but at least one parseable
showtime still emits records; the film name defaults to `Unknown Film`
and, when the synopsis element is also absent, the synopsis defaults to
`No synopsis available.`. -/
theorem missing_title_defaults (d : MovieDiv) (hok : div_steps_ok d = true)
    (hname : d.find_film_name = .ok none)
    (hkept : keptShowtimes (div_hours d) ≠ []) :
    ∃ l, parse_movie_div d = .ok l ∧ l ≠ []
      ∧ (∀ r ∈ l, r.film_name = "Unknown Film")
      ∧ (d.find_synopsis = .ok none →
          ∀ r ∈ l, r.synopsis = "No synopsis available.") := by
  obtain ⟨f1, f2, f3, f4, f5, f6⟩ := d
  rw [div_steps_ok] at hok
  simp only [Bool.and_eq_true, isOk_iff_exists] at hok
  obtain ⟨⟨⟨⟨⟨⟨fn, hfn⟩, ⟨sy, hsy⟩⟩, ⟨st, hst⟩⟩, ⟨im, him⟩⟩, ⟨dl, hdl⟩⟩, ⟨rd, hrd⟩⟩ := hok
  subst hfn hsy hst him hdl hrd
  cases hname
  rw [div_hours_ok] at hkept
  rw [parse_movie_div_ok_eval]
  have hemp : ((keptShowtimes (st.getD [])).isEmpty = true) = False := by
    simp [List.isEmpty_iff, hkept]
  refine ⟨_, rfl, ?_, ?_, ?_⟩
  · simp [hemp, hkept]
  · intro r hr
    rw [if_neg (by simp [hkept])] at hr
    rw [List.mem_map] at hr
    obtain ⟨s, _, rfl⟩ := hr
    rfl
  · intro hsyn
    cases hsyn
    intro r hr
    rw [if_neg (by simp [hkept])] at hr
    rw [List.mem_map] at hr
    obtain ⟨s, _, rfl⟩ := hr
    rfl

/-- Claim C1 (divergence witness): an exception raised by the very first
library call of a card — before the local `film_name` is assigned — makes
the `except` handler itself raise (its log line reads `film_name`), so the
whole page's extraction aborts instead of the card contributing zero
records; a later card with valid records is lost.  An exception raised
after `film_name` is assigned is caught as the spec describes. -/
theorem single_card_exception_aborts_page :
    parse_movie_div card_title_raises = .error ()
      ∧ parse_movie_div card_good = .ok [record_good]
      ∧ parse_page_results (some ⟨some [card_title_raises, card_good]⟩) = .error ()
      ∧ parse_movie_div card_late_raises = .ok []
      ∧ parse_page_results (some ⟨some [card_late_raises, card_good]⟩)
          = .ok [record_good] :=
  ⟨rfl, rfl, rfl, rfl, rfl⟩

/-- Claim C5: a run that scrapes zero records renders the page shell
around the "no data available" placeholder; the result does not depend on
the current weekday nor on the day/film templates (no aggregation or
day/film rendering takes place). -/
theorem empty_run_renders_placeholder (T T2 : Templates) (env : ScrapeEnv)
    (w w2 : Nat) (hempty : (scrape_run env w).2 = [])
    (hshell : T.index = T2.index) :
    build_index_html T w (scrape_run env w).2 = T.index no_data_content
      ∧ build_index_html T w (scrape_run env w).2
          = build_index_html T2 w2 (scrape_run env w).2 := by
  rw [hempty]
  exact ⟨rfl, congrFun hshell no_data_content⟩

/-- Witness for C5 at a concrete empty environment. -/
theorem empty_run_renders_placeholder_witness :
    (scrape_run env_empty 3).2 = []
      ∧ build_index_html sample_templates 3 (scrape_run env_empty 3).2
          = sample_templates.index no_data_content
      ∧ build_index_html sample_templates 3 (scrape_run env_empty 3).2
          = build_index_html sample_templates2 5 (scrape_run env_empty 3).2 :=
  ⟨rfl,
    (empty_run_renders_placeholder sample_templates sample_templates2 env_empty 3 5
      rfl rfl).1,
    (empty_run_renders_placeholder sample_templates sample_templates2 env_empty 3 5
      rfl rfl).2⟩

/-- Claim C7: with the cache file for the title absent and the first GET
succeeding, two invocations of `download_image` with the same title and
URL perform exactly one network fetch in total; the second call is a
no-op (fetches nothing, changes nothing, returns `False`), and whenever a
file already exists at the path, `download_image` fetches nothing and
leaves the file system unchanged. -/
theorem image_cache_idempotent (session : String → Bool) (url title : String)
    (fs : FileSystem)
    (hmiss : isfile fs (image_filename_of title) = false)
    (hfetch : session url = true) :
    (download_image session url (image_filename_of title) fs).2.2
        + (download_image session url (image_filename_of title)
            (download_image session url (image_filename_of title) fs).2.1).2.2 = 1
      ∧ (download_image session url (image_filename_of title)
          (download_image session url (image_filename_of title) fs).2.1)
          = (false,
             (download_image session url (image_filename_of title) fs).2.1, 0)
      ∧ (∀ fs2 p, isfile fs2 p = true →
          download_image session url p fs2 = (false, fs2, 0)) := by
  have h1 : download_image session url (image_filename_of title) fs
      = (true, ⟨image_filename_of title :: fs.files⟩, 1) := by
    rw [download_image, if_neg (by simp [hmiss]), if_pos hfetch]
  have hfile : isfile ⟨image_filename_of title :: fs.files⟩
      (image_filename_of title) = true := by
    simp [isfile]
  refine ⟨?_, ?_, ?_⟩
  · rw [h1]
    show 1 + (download_image _ _ _ _).2.2 = 1
    rw [download_image, if_pos hfile]
    rfl
  · rw [h1]
    show download_image _ _ _ _ = _
    rw [download_image, if_pos hfile]
  · intro fs2 p hp
    rw [download_image, if_pos hp]

/-- Witness for C7 at a concrete title and empty cache. -/
theorem image_cache_idempotent_witness :
    isfile ⟨[]⟩ (image_filename_of "Dune: Part Two") = false
      ∧ (download_image (fun _ => true) "u" (image_filename_of "Dune: Part Two")
            ⟨[]⟩).2.2
          + (download_image (fun _ => true) "u" (image_filename_of "Dune: Part Two")
              (download_image (fun _ => true) "u" (image_filename_of "Dune: Part Two")
                ⟨[]⟩).2.1).2.2 = 1 :=
  ⟨by decide,
    (image_cache_idempotent (fun _ => true) "u" "Dune: Part Two" ⟨[]⟩
      (by decide) rfl).1⟩

theorem dayKey_inj (w : Nat) (hw : w < 7) :
    ∀ a ∈ day_names, ∀ b ∈ day_names, dayKey w a = dayKey w b → a = b := by
  interval_cases w <;> decide

theorem rotation_nodup (w : Nat) (hw : w < 7) : (rotation_from w).Nodup := by
  interval_cases w <;> decide

theorem rotation_sorted (w : Nat) (hw : w < 7) :
    (rotation_from w).Pairwise (fun a b => dayKey w a < dayKey w b) := by
  interval_cases w <;> decide

theorem mem_rotation (w : Nat) (hw : w < 7) :
    ∀ d ∈ day_names, d ∈ rotation_from w := by
  interval_cases w <;> decide

theorem day_categories_sorted (w : Nat) (jour_col : List String) :
    (day_categories w jour_col).Pairwise
      (fun a b => dayKey w a ≤ dayKey w b) := by
  haveI : IsTotal String (fun a b => dayKey w a ≤ dayKey w b) :=
    ⟨fun a b => Nat.le_total _ _⟩
  haveI : IsTrans String (fun a b => dayKey w a ≤ dayKey w b) :=
    ⟨fun a b c => Nat.le_trans⟩
  exact List.sorted_insertionSort _ _

theorem day_categories_perm (w : Nat) (jour_col : List String) :
    (day_categories w jour_col).Perm (pyUnique jour_col) :=
  List.perm_insertionSort _ _

/-- Claim C3: with current weekday `w`, the day blocks of the rendered
document appear in the order of the canonical week rotated to start at
`w`, restricted to the days present in the data; for Wednesday (`w = 2`)
the rotation is Mercredi, Jeudi, ..., Mardi. -/
theorem day_blocks_rotation_order (w : Nat) (hw : w < 7) (rows : List Row)
    (hvalid : ∀ r ∈ rows, r.jour ∈ day_names) :
    (groupby_jour w rows).map Prod.fst
        = (rotation_from w).filter
            (fun d => (rows.map (fun r => r.jour)).contains d)
      ∧ rotation_from 2
          = ["Mercredi", "Jeudi", "Vendredi", "Samedi", "Dimanche", "Lundi",
             "Mardi"] := by
  refine ⟨?_, by decide⟩
  have hfst : (groupby_jour w rows).map Prod.fst
      = day_categories w (rows.map (fun r => r.jour)) := by
    rw [groupby_jour, List.map_map]
    have hcomp : (Prod.fst ∘ fun d => (d, rows.filter (fun r => r.jour == d)))
        = id := rfl
    rw [hcomp, List.map_id]
  rw [hfst]
  set J := rows.map (fun r => r.jour) with hJ
  have hJnames : ∀ x ∈ J, x ∈ day_names := by
    intro x hx
    rw [hJ, List.mem_map] at hx
    obtain ⟨r, hr, rfl⟩ := hx
    exact hvalid r hr
  have hperm : (day_categories w J).Perm (pyUnique J) := day_categories_perm w J
  have hSnodup : (day_categories w J).Nodup :=
    hperm.symm.nodup (nodup_pyUnique J)
  have hmemS : ∀ x, x ∈ day_categories w J ↔ x ∈ J := by
    intro x
    rw [hperm.mem_iff, mem_pyUnique]
  have hSnames : ∀ x ∈ day_categories w J, x ∈ day_names := by
    intro x hx
    exact hJnames x ((hmemS x).1 hx)
  have hSsorted : (day_categories w J).Pairwise
      (fun a b => dayKey w a < dayKey w b) := by
    have hand := (day_categories_sorted w J).and hSnodup
    refine hand.imp_of_mem ?_
    intro a b ha hb hab
    refine Nat.lt_of_le_of_ne hab.1 ?_
    intro hkey
    exact hab.2 (dayKey_inj w hw a (hSnames a ha) b (hSnames b hb) hkey)
  have hRsorted : ((rotation_from w).filter (fun d => J.contains d)).Pairwise
      (fun a b => dayKey w a < dayKey w b) :=
    (rotation_sorted w hw).filter _
  have hRnodup : ((rotation_from w).filter (fun d => J.contains d)).Nodup :=
    (rotation_nodup w hw).filter _
  have hmemR : ∀ x, x ∈ (rotation_from w).filter (fun d => J.contains d) ↔ x ∈ J := by
    intro x
    rw [List.mem_filter]
    constructor
    · rintro ⟨-, hc⟩
      exact List.elem_iff.mp hc
    · intro hx
      exact ⟨mem_rotation w hw x (hJnames x hx), List.elem_iff.mpr hx⟩
  have hperm2 : (day_categories w J).Perm
      ((rotation_from w).filter (fun d => J.contains d)) := by
    rw [List.perm_ext_iff_of_nodup hSnodup hRnodup]
    intro x
    rw [hmemS x, hmemR x]
  haveI : IsAntisymm String (fun a b => dayKey w a < dayKey w b) :=
    ⟨fun a b h1 h2 => absurd (Nat.lt_trans h1 h2) (Nat.lt_irrefl _)⟩
  exact List.eq_of_perm_of_sorted hperm2 hSsorted hRsorted

/-- Witness for C3: a concrete Wednesday run with three days present. -/
theorem day_blocks_rotation_order_witness :
    (2 : Nat) < 7
      ∧ (groupby_jour 2 [⟨"bercy", "Lundi", "F", "", "", "10:00", "F.jpg"⟩,
          ⟨"bercy", "Dimanche", "F", "", "", "11:00", "F.jpg"⟩,
          ⟨"bercy", "Mercredi", "F", "", "", "12:00", "F.jpg"⟩]).map Prod.fst
          = ["Mercredi", "Dimanche", "Lundi"] := by
  refine ⟨by decide, ?_⟩
  have h := (day_blocks_rotation_order 2 (by decide)
    [⟨"bercy", "Lundi", "F", "", "", "10:00", "F.jpg"⟩,
     ⟨"bercy", "Dimanche", "F", "", "", "11:00", "F.jpg"⟩,
     ⟨"bercy", "Mercredi", "F", "", "", "12:00", "F.jpg"⟩] (by decide)).1
  rw [h]
  decide

theorem pages_loop_char (env : ScrapeEnv) (c : String) (k : Nat) :
    (pages_loop env c k PAGES_TO_SCRAPE).1
      = if env.page_seances c k 1 = [] then [1] else [1, 2] := by
  rw [PAGES_TO_SCRAPE]
  by_cases h : env.page_seances c k 1 = []
  · rw [if_pos h]
    simp [pages_loop, h]
  · rw [if_neg h]
    by_cases h2 : env.page_seances c k 2 = []
    · simp [pages_loop, h, h2]
    · simp [pages_loop, h, h2]

theorem scrape_dates_trace (env : ScrapeEnv) (w : Nat) (code name : String) :
    ∀ ks, (scrape_dates env w code name ks).1
      = ks.flatMap (fun k => (pages_loop env code k PAGES_TO_SCRAPE).1.map
          (fun p => (code, k, p)))
  | [] => rfl
  | k :: ks => by
    rw [List.flatMap_cons, ← scrape_dates_trace env w code name ks]
    rfl

theorem scrape_cinemas_trace (env : ScrapeEnv) (w : Nat) :
    ∀ cns, (scrape_cinemas env w cns).1
      = cns.flatMap (fun cn =>
          (scrape_dates env w cn.1 cn.2 (List.range NUM_DAYS_TO_SCRAPE)).1)
  | [] => rfl
  | cn :: cns => by
    rw [List.flatMap_cons, ← scrape_cinemas_trace env w cns]
    rfl

theorem filter_flatMap {α β : Type} (p : β → Bool) (g : α → List β) :
    ∀ l : List α, (l.flatMap g).filter p = l.flatMap (fun x => (g x).filter p)
  | [] => rfl
  | a :: l => by
    rw [List.flatMap_cons, List.flatMap_cons, List.filter_append,
      filter_flatMap p g l]

theorem flatMap_eq_nil {α β : Type} (g : α → List β) :
    ∀ l : List α, (∀ x ∈ l, g x = []) → l.flatMap g = []
  | [] => fun _ => rfl
  | a :: l => by
    intro h
    rw [List.flatMap_cons, h a (List.mem_cons_self a l),
      flatMap_eq_nil g l (fun x hx => h x (List.mem_cons_of_mem a hx))]
    rfl

theorem flatMap_single_key {α β γ : Type} (key : α → γ) (g : α → List β) (a : α) :
    ∀ l : List α, (l.map key).Nodup → a ∈ l →
      (∀ x ∈ l, key x ≠ key a → g x = []) → l.flatMap g = g a
  | [], _, ha, _ => absurd ha (List.not_mem_nil a)
  | b :: l, hnd, ha, h => by
    rw [List.map_cons, List.nodup_cons] at hnd
    by_cases hkb : key b = key a
    · have hab : a = b := by
        rcases List.mem_cons.1 ha with h1 | h1
        · exact h1
        · exact absurd (hkb ▸ List.mem_map_of_mem key h1) hnd.1
      subst hab
      rw [List.flatMap_cons,
        flatMap_eq_nil g l (fun x hx => by
          refine h x (List.mem_cons_of_mem a hx) ?_
          intro hkxa
          exact hnd.1 (hkxa ▸ List.mem_map_of_mem key hx)),
        List.append_nil]
    · rw [List.flatMap_cons, h b (List.mem_cons_self b l) hkb, List.nil_append]
      have hal : a ∈ l := by
        rcases List.mem_cons.1 ha with h1 | h1
        · exact absurd (h1 ▸ rfl) (Ne.symm hkb)
        · exact h1
      exact flatMap_single_key key g a l hnd.2 hal
        (fun x hx => h x (List.mem_cons_of_mem b hx))

theorem requests_for_char (env : ScrapeEnv) (w : Nat) (c : String) (k : Nat)
    (hc : c ∈ CINEMAS_BY_CODE.map Prod.fst) (hk : k < NUM_DAYS_TO_SCRAPE) :
    requests_for env w c k = (pages_loop env c k PAGES_TO_SCRAPE).1 := by
  obtain ⟨cn, hcn, hfst⟩ := List.mem_map.1 hc
  rw [requests_for, scrape_run, scrape_cinemas_trace, filter_flatMap]
  rw [flatMap_single_key Prod.fst _ cn CINEMAS_BY_CODE (by decide) hcn ?_]
  rotate_left
  · intro x hx hne
    rw [hfst] at hne
    rw [scrape_dates_trace, filter_flatMap]
    refine flatMap_eq_nil _ _ ?_
    intro k2 hk2
    rw [List.filter_eq_nil_iff]
    intro t ht
    rw [List.mem_map] at ht
    obtain ⟨p, hp, rfl⟩ := ht
    simp only [Bool.and_eq_true, beq_iff_eq]
    rintro ⟨rfl, -⟩
    exact hne rfl
  rw [scrape_dates_trace, hfst, filter_flatMap]
  rw [flatMap_single_key id _ k (List.range NUM_DAYS_TO_SCRAPE)
    (by simpa using List.nodup_range NUM_DAYS_TO_SCRAPE)
    (List.mem_range.mpr hk) ?_]
  rotate_left
  · intro k2 hk2 hne
    rw [List.filter_eq_nil_iff]
    intro t ht
    rw [List.mem_map] at ht
    obtain ⟨p, hp, rfl⟩ := ht
    simp only [Bool.and_eq_true, beq_iff_eq]
    rintro ⟨-, rfl⟩
    exact hne rfl
  rw [List.filter_eq_self.mpr ?_]
  rotate_left
  · intro t ht
    rw [List.mem_map] at ht
    obtain ⟨p, hp, rfl⟩ := ht
    simp
  rw [List.map_map]
  have hcomp : ((fun t : String × Nat × Nat => t.2.2)
      ∘ fun p => (c, k, p)) = id := rfl
  rw [hcomp, List.map_id]

/-- Claim C9: for every configured cinema and scraped date, pages are
requested in increasing order starting at page 1; if page 1 yields no
record, no further page is requested; page 2 is requested exactly when
page 1 yielded at least one record; and no page beyond 2 is ever
requested. -/
theorem pagination_stops_on_empty_page (env : ScrapeEnv) (w : Nat)
    (c : String) (k : Nat) (hc : c ∈ CINEMAS_BY_CODE.map Prod.fst)
    (hk : k < NUM_DAYS_TO_SCRAPE) :
    requests_for env w c k
        = (if env.page_seances c k 1 = [] then [1] else [1, 2])
      ∧ (env.page_seances c k 1 = [] → requests_for env w c k = [1])
      ∧ (env.page_seances c k 1 ≠ [] → requests_for env w c k = [1, 2])
      ∧ (requests_for env w c k).head? = some 1
      ∧ List.Chain' (fun a b => a < b) (requests_for env w c k)
      ∧ (∀ p ∈ requests_for env w c k, 1 ≤ p ∧ p ≤ 2) := by
  have hmain : requests_for env w c k
      = if env.page_seances c k 1 = [] then [1] else [1, 2] := by
    rw [requests_for_char env w c k hc hk, pages_loop_char]
  rw [hmain]
  by_cases h : env.page_seances c k 1 = [] <;> simp [h]

/-- Witness for C9: a concrete environment in which page 1 of `C0026`
at date offset 0 has a seance. -/
theorem pagination_stops_on_empty_page_witness :
    "C0026" ∈ CINEMAS_BY_CODE.map Prod.fst
      ∧ (0 : Nat) < NUM_DAYS_TO_SCRAPE
      ∧ requests_for env_one_film 3 "C0026" 0
          = (if env_one_film.page_seances "C0026" 0 1 = [] then [1] else [1, 2]) :=
  ⟨by decide, by decide,
    (pagination_stops_on_empty_page env_one_film 3 "C0026" 0
      (by decide) (by decide)).1⟩

/-- Witness for C2 at a concrete well-formed card. -/
theorem records_per_parseable_hour_witness :
    div_steps_ok card_good = true
      ∧ ∃ l, parse_movie_div card_good = Except.ok l
        ∧ l.length = (div_hours card_good).countP
            (fun he => truthyStr (parse_showtime_hour he))
        ∧ ((div_hours card_good).countP
            (fun he => truthyStr (parse_showtime_hour he)) = 0 → l = []) :=
  ⟨by decide, records_per_parseable_hour card_good (by decide)⟩

/-- Witness for C10 at a concrete card with no title element. -/
theorem missing_title_defaults_witness :
    div_steps_ok card_no_title = true
      ∧ card_no_title.find_film_name = .ok none
      ∧ keptShowtimes (div_hours card_no_title) ≠ []
      ∧ ∃ l, parse_movie_div card_no_title = .ok l ∧ l ≠ []
          ∧ (∀ r ∈ l, r.film_name = "Unknown Film")
          ∧ (card_no_title.find_synopsis = .ok none →
              ∀ r ∈ l, r.synopsis = "No synopsis available.") :=
  ⟨by decide, rfl, by decide,
    missing_title_defaults card_no_title (by decide) rfl (by decide)⟩
